import Mathlib

/-!
Verification of the generic CRUD data-access layer of a FastAPI template
repository.  The embedding follows `src/src/utils/base/BaseRepository.py`
(class `BaseRepository`), together with the small pieces of
`src/src/utils/base/BaseService.py` and `src/src/exceptions.py` that the
claims touch.

Conventions of the embedding:
* Python scalar values held in rows and identifiers are `Value`.
* A SQLAlchemy model class is a `ModelDesc` (its attribute shape); rows are
  association lists in column order, stored in a `Store` keyed by the
  Python class name.  The relational store is the external collaborator of
  the spec: `fetchOneBy` is `select(model).where(col == v)` +
  `scalar_one_or_none()`, with an injectable failure predicate standing for
  storage faults (`DatabaseError`).
* Python exceptions are the `Fault` type; functions that can raise return
  `Except Fault`.  A bare `except Exception` catches every `Fault`;
  `except ValueError` only `Fault.valueError`.
* `asyncio.gather` over the plural fan-out preserves input order and is
  modelled as a sequential left-to-right traversal of the same list.
-/

namespace CrudCore

/-- Python runtime values that appear in rows, identifiers and query
parameters.  `vUuid` holds the canonical 32-hex-digit lowercase form of a
`uuid.UUID`. -/
inductive Value where
  | vNone
  | vInt (n : Int)
  | vStr (s : String)
  | vUuid (hex : String)
  | vBool (b : Bool)
  | vList (items : List Value)

mutual

def Value.decEq : (a b : Value) → Decidable (a = b)
  | .vNone, .vNone => .isTrue rfl
  | .vInt a, .vInt b =>
    if h : a = b then .isTrue (by rw [h])
    else .isFalse (fun hh => h (by injection hh))
  | .vStr a, .vStr b =>
    if h : a = b then .isTrue (by rw [h])
    else .isFalse (fun hh => h (by injection hh))
  | .vUuid a, .vUuid b =>
    if h : a = b then .isTrue (by rw [h])
    else .isFalse (fun hh => h (by injection hh))
  | .vBool a, .vBool b =>
    if h : a = b then .isTrue (by rw [h])
    else .isFalse (fun hh => h (by injection hh))
  | .vList a, .vList b =>
    match Value.decEqList a b with
    | .isTrue h => .isTrue (by rw [h])
    | .isFalse h => .isFalse (fun hh => h (by injection hh))
  | .vNone, .vInt _ | .vNone, .vStr _ | .vNone, .vUuid _ | .vNone, .vBool _
  | .vNone, .vList _ | .vInt _, .vNone | .vInt _, .vStr _ | .vInt _, .vUuid _
  | .vInt _, .vBool _ | .vInt _, .vList _ | .vStr _, .vNone | .vStr _, .vInt _
  | .vStr _, .vUuid _ | .vStr _, .vBool _ | .vStr _, .vList _ | .vUuid _, .vNone
  | .vUuid _, .vInt _ | .vUuid _, .vStr _ | .vUuid _, .vBool _ | .vUuid _, .vList _
  | .vBool _, .vNone | .vBool _, .vInt _ | .vBool _, .vStr _ | .vBool _, .vUuid _
  | .vBool _, .vList _ | .vList _, .vNone | .vList _, .vInt _ | .vList _, .vStr _
  | .vList _, .vUuid _ | .vList _, .vBool _ => .isFalse (fun hh => by cases hh)

def Value.decEqList : (a b : List Value) → Decidable (a = b)
  | [], [] => .isTrue rfl
  | [], _ :: _ => .isFalse (fun hh => by cases hh)
  | _ :: _, [] => .isFalse (fun hh => by cases hh)
  | x :: xs, y :: ys =>
    match Value.decEq x y with
    | .isTrue h1 =>
      match Value.decEqList xs ys with
      | .isTrue h2 => .isTrue (by rw [h1, h2])
      | .isFalse h2 => .isFalse (fun hh => h2 (by injection hh))
    | .isFalse h1 => .isFalse (fun hh => h1 (by injection hh))

end

instance : DecidableEq Value := Value.decEq

instance : BEq Value := ⟨fun a b => decide (a = b)⟩

/-- Python exceptions relevant to the data-access layer. -/
inductive Fault where
  | valueError (msg : String)
  | notFound (msg : String)
  | attributeError (attr : String)
  | typeFault (msg : String)
  | unboundLocal (name : String)
  | internalFailure (msg : String)
  | multipleResults
  | badRequest (error : String)
deriving DecidableEq

/-- Nested JSON documents produced by the recursive expander. -/
inductive Json where
  | null
  | prim (v : Value)
  | obj (fields : List (String × Json))
  | arr (items : List Json)

/-- A database row: association list from column key to value, in the
column order of the mapper (`__object_as_dict` iterates `mapper.columns`). -/
abbrev Row := List (String × Value)

/-! Character-list implementations of the Python string primitives the
data-access layer uses (`split`, `join`, `endswith`, `replace`, slicing),
so that every embedded function evaluates by reduction. -/

def listIsPrefix : List Char → List Char → Bool
  | [], _ => true
  | _ :: _, [] => false
  | p :: ps, c :: cs => p == c && listIsPrefix ps cs

/-- Python `s.endswith(suffix)`. -/
def strEndsWith (s suffix : String) : Bool :=
  listIsPrefix suffix.toList.reverse s.toList.reverse

/-- Python `s.split(sep)` for a single-character separator: never empty,
keeps empty pieces. -/
def splitChar (sep : Char) : List Char → List (List Char)
  | [] => [[]]
  | c :: cs =>
    match splitChar sep cs with
    | [] => [[]]
    | piece :: pieces =>
      if c == sep then [] :: piece :: pieces
      else (c :: piece) :: pieces

/-- Python `sep.join(pieces)` for a single-character separator. -/
def joinWithChar (sep : Char) : List (List Char) → List Char
  | [] => []
  | [piece] => piece
  | piece :: pieces => piece ++ sep :: joinWithChar sep pieces

/-- Python `s.replace(pat, "")` (all non-overlapping occurrences removed),
with explicit fuel to keep the recursion structural. -/
def removePatAux (pat : List Char) : Nat → List Char → List Char
  | _, [] => []
  | 0, l => l
  | fuel + 1, c :: cs =>
    if pat.length != 0 && listIsPrefix pat (c :: cs) then
      removePatAux pat fuel ((c :: cs).drop pat.length)
    else
      c :: removePatAux pat fuel cs

def removePat (pat : List Char) (l : List Char) : List Char :=
  removePatAux pat l.length l

/-- Python `str.isdigit()` (ASCII digits; empty string is false). -/
def pyIsDigit (s : String) : Bool :=
  s.length != 0 && s.toList.all Char.isDigit

def digitsToNat (l : List Char) : Nat :=
  l.foldl (fun n c => n * 10 + (c.toNat - 48)) 0

/-- `int(s)` under a successful `str.isdigit()` guard. -/
def pyInt (s : String) : Int :=
  Int.ofNat (digitsToNat s.toList)

/-- Python `str.capitalize()`: first character upper-cased, the rest
lower-cased. -/
def pyCapitalize (s : String) : String :=
  match s.toList with
  | [] => ""
  | c :: cs => String.mk (c.toUpper :: cs.map Char.toLower)

def isHexChar (c : Char) : Bool :=
  c.isDigit || (97 ≤ c.toNat && c.toNat ≤ 102) || (65 ≤ c.toNat && c.toNat ≤ 70)

def isBraceChar (c : Char) : Bool :=
  c.toNat == 123 || c.toNat == 125

/-- `uuid.UUID(s)` from the Python standard library: removes `urn:` and
`uuid:` markers, strips curly braces, drops hyphens, and accepts exactly 32
hexadecimal digits (case-insensitively).  Returns the canonical lowercase
32-digit form, or `none` when the constructor would raise `ValueError`. -/
def pythonUuidParse (s : String) : Option String :=
  let t := removePat "uuid:".toList (removePat "urn:".toList s.toList)
  let chars := (t.dropWhile isBraceChar).reverse.dropWhile isBraceChar
  let chars := (chars.reverse.filter (fun c => c != '-'))
  if chars.length == 32 && chars.all isHexChar then
    some (String.mk (chars.map Char.toLower))
  else
    none

/-- `str(uuid)`: the hyphenated 8-4-4-4-12 rendering of a canonical
32-digit hex form. -/
def uuidHyphenate (hex : String) : String :=
  let cs := hex.toList
  String.mk (cs.take 8) ++ "-" ++ String.mk ((cs.drop 8).take 4) ++ "-" ++
    String.mk ((cs.drop 12).take 4) ++ "-" ++ String.mk ((cs.drop 16).take 4) ++
    "-" ++ String.mk (cs.drop 20)

/-- Python `str(value)` as used in f-string error messages. -/
def pyStrOfValue : Value → String
  | .vNone => "None"
  | .vInt n => toString n
  | .vStr s => s
  | .vUuid h => uuidHyphenate h
  | .vBool b => if b then "True" else "False"
  | .vList _ => "[...]"

/-- Python truthiness of a value (`if value:`). -/
def pyTruthy : Value → Bool
  | .vNone => false
  | .vInt n => n != 0
  | .vStr s => s.length != 0
  | .vUuid _ => true
  | .vBool b => b
  | .vList items => !items.isEmpty

/-- Attribute shape of a SQLAlchemy model class, as probed dynamically by
`BaseRepository` (`hasattr`, `model.__dict__.get`, column types). -/
structure ModelDesc where
  /-- `cls.__name__`, the key in the `Base.__subclasses__()` dictionary. -/
  className : String
  /-- `hasattr(model, "uuid")`. -/
  hasUuid : Bool
  /-- `hasattr(model, "id")`. -/
  hasId : Bool
  /-- `model.id.type.python_type == UUID`. -/
  idIsUuid : Bool
  /-- attribute names visible to `hasattr`/`getattr` (columns and
  relationships). -/
  attrs : List String
  /-- names visible to `model.__dict__.get` (attributes declared on the
  class itself). -/
  dictAttrs : List String
deriving DecidableEq

/-- The relational store: tables keyed by model class name, plus an
injectable failure predicate modelling a storage fault (`DatabaseError`)
raised while executing a single-row lookup on (class, column, value). -/
structure Store where
  tables : List (String × List Row)
  failing : String → String → Value → Bool

def Store.rows (store : Store) (className : String) : List Row :=
  (store.tables.lookup className).getD []

def rowGet (r : Row) (k : String) : Value :=
  ((List.lookup k r).getD .vNone)

/-- SQL comparison semantics of a `WHERE col = v` clause: `NULL` matches
nothing (not even `NULL`). -/
def sqlEq (a b : Value) : Bool :=
  match a, b with
  | .vNone, _ => false
  | _, .vNone => false
  | a, b => a == b

/-- `select(model).where(getattr(model, field) == v)` followed by
`scalar_one_or_none()` (`_execute_query_one_or_none`): storage fault if the
store is failing on this lookup, `MultipleResultsFound` when more than one
row matches. -/
def fetchOneBy (store : Store) (m : ModelDesc) (field : String) (v : Value) :
    Except Fault (Option Row) :=
  if store.failing m.className field v then
    .error (.internalFailure "DatabaseError")
  else
    match (store.rows m.className).filter (fun r => sqlEq (rowGet r field) v) with
    | [] => .ok none
    | [r] => .ok (some r)
    | _ :: _ :: _ => .error .multipleResults

/-- `DELETE FROM model WHERE field = v` (all matching rows removed). -/
def storeDelete (store : Store) (m : ModelDesc) (field : String) (v : Value) :
    Store :=
  { store with
    tables := store.tables.map (fun t =>
      if t.1 == m.className then
        (t.1, t.2.filter (fun r => !(sqlEq (rowGet r field) v)))
      else t) }

/-- `INSERT INTO model VALUES (...)`: the row (with its DB-side defaults
already materialised) is appended to the table. -/
def storeInsert (store : Store) (className : String) (r : Row) : Store :=
  { store with
    tables :=
      if (store.tables.lookup className).isSome then
        store.tables.map (fun t =>
          if t.1 == className then (t.1, t.2 ++ [r]) else t)
      else store.tables ++ [(className, [r])] }

/-- Applying `UPDATE ... SET` values to one row: listed columns are
replaced, all other columns keep their stored value. -/
def rowUpdate (r : Row) (upd : List (String × Value)) : Row :=
  r.map (fun p =>
    match List.lookup p.1 upd with
    | some v => (p.1, v)
    | none => p)

/-- `UPDATE model SET ... WHERE field = v`. -/
def storeUpdate (store : Store) (m : ModelDesc) (field : String) (v : Value)
    (upd : List (String × Value)) : Store :=
  { store with
    tables := store.tables.map (fun t =>
      if t.1 == m.className then
        (t.1, t.2.map (fun r => if sqlEq (rowGet r field) v then rowUpdate r upd else r))
      else t) }

/-- The dictionary `{cls.__name__: cls for cls in Base.__subclasses__()}`:
the registered model classes.  In the repository these are `User`,
`Organization`, `Notification` and `NotificationSettings`. -/
abbrev Registry := List ModelDesc

/-- `BaseRepository._is_model_id_or_uuid`. -/
def is_model_id_or_uuid (column_name : String) : Bool :=
  strEndsWith column_name "id" || strEndsWith column_name "uuid"

/-- `BaseRepository._is_model_ids_or_uuids`. -/
def is_model_ids_or_uuids (column_name : String) : Bool :=
  strEndsWith column_name "ids" || strEndsWith column_name "uuids"

/-- The expression `"_".join(column.split("_")[0:-1])` of
`__get_one_recursive`. -/
def joinedInitOfColumn (column : String) : String :=
  String.mk (joinWithChar '_' ((splitChar '_' column.toList).dropLast))

/-- `BaseRepository.__get_model_by_name`: title-case-join the
underscore-separated words and look the result up among the registered
model classes. -/
def get_model_by_name (reg : Registry) (model_name : String) : Option ModelDesc :=
  let splitted_model_name := splitChar '_' model_name.toList
  let name :=
    String.mk ((splitted_model_name.map (fun w => (pyCapitalize (String.mk w)).toList)).flatten)
  reg.find? (fun m => m.className == name)

/-- `BaseRepository.__get_entity_by_id_or_uuid`, the identifier resolver.
Mirrors the source branch for branch:
* model with `uuid` and `id` attributes whose `id` column is UUID-typed:
  parse string input as UUID (`ValueError` is caught and yields `None`),
  then select by `id`;
* model with `uuid` and `id` attributes and non-UUID `id` (dual key): a
  string is first tried as UUID (lookup by `uuid`); on parse failure an
  all-digits string falls back to an integer `id` lookup, anything else
  yields `None`; an `int` goes to `id`, any other value to `uuid`;
* model without both attributes: digit strings are converted to `int` and
  the lookup is by `id`. -/
def get_entity_by_id_or_uuid (store : Store) (m : ModelDesc) (entity_id : Value) :
    Except Fault (Option Row) :=
  if m.hasUuid && m.hasId then
    if m.idIsUuid then
      match entity_id with
      | .vStr s =>
        match pythonUuidParse s with
        | some u => fetchOneBy store m "id" (.vUuid u)
        | none => .ok none
      | v => fetchOneBy store m "id" v
    else
      match entity_id with
      | .vStr s =>
        match pythonUuidParse s with
        | some u => fetchOneBy store m "uuid" (.vUuid u)
        | none =>
          if pyIsDigit s then fetchOneBy store m "id" (.vInt (pyInt s))
          else .ok none
      | .vInt n => fetchOneBy store m "id" (.vInt n)
      | v => fetchOneBy store m "uuid" v
  else
    let entity_id :=
      match entity_id with
      | .vStr s => if pyIsDigit s then .vInt (pyInt s) else .vStr s
      | v => v
    fetchOneBy store m "id" entity_id

/-- `BaseRepository.__object_as_dict` applied to a fetched row, as the
starting JSON object of the expander: every column becomes a primitive
field. -/
def object_as_dict (r : Row) : List (String × Json) :=
  r.map (fun p => (p.1, Json.prim p.2))

/-- Python `dict` assignment `json_obj[column_name] = sub_json`: replace in
place when the key exists, append otherwise. -/
def dictInsert : List (String × Json) → String → Json → List (String × Json)
  | [], k, v => [(k, v)]
  | (k0, v0) :: rest, k, v =>
    if k0 == k then (k, v) :: rest else (k0, v0) :: dictInsert rest k v

/-- `BaseRepository.__add_fields_to_json`: add each collected sub-result
whose value `is not None` to the JSON object, left to right. -/
def add_fields_to_json : List (String × Json) → List (String × Option Json) →
    List (String × Json)
  | json_obj, [] => json_obj
  | json_obj, (column_name, some sub_json) :: rest =>
    add_fields_to_json (dictInsert json_obj column_name sub_json) rest
  | json_obj, (_, none) :: rest => add_fields_to_json json_obj rest

/-- Iterating a Python value (`for val in value`): lists yield their
elements, strings their characters; other values raise `TypeError`. -/
def pyIterate : Value → Except Fault (List Value)
  | .vList items => .ok items
  | .vStr s => .ok (s.toList.map (fun c => Value.vStr (String.mk [c])))
  | _ => .error (.typeFault "object is not iterable")

/-- The `asyncio.gather` fan-out of `__get_one_recursive` over the non-null
elements of a plural column, one recursive expansion per element, results
in input order.  `recur` is the recursive call at decremented depth.  When
the convention-derived model is not registered, the source calls
`__get_one_recursive` with `model=None`; inside that call the base fetch
raises `AttributeError`, which the catch-all around the fetch turns into
`None` — so such a branch yields `none` directly here. -/
def expand_list (recur : ModelDesc → Value → Except Fault (Option Json))
    (modelOpt : Option ModelDesc) : List Value → Except Fault (List (Option Json))
  | [] => .ok []
  | val :: rest =>
    match modelOpt with
    | some model =>
      match recur model val with
      | .error e => .error e
      | .ok sub =>
        match expand_list recur (some model) rest with
        | .error e => .error e
        | .ok tail => .ok (sub :: tail)
    | none =>
      match expand_list recur none rest with
      | .error e => .error e
      | .ok tail => .ok (none :: tail)

/-- The `for column, value in json_result.items()` loop of
`__get_one_recursive` under `recursive_depth > 0`, collecting
`jsons_to_add_to_final_result`:
* a column matching the singular convention with a registered
  convention-derived model contributes `(derived_name, sub_json)` where
  `sub_json` is the recursive expansion of its value (possibly `None`);
  with an unregistered model nothing is contributed;
* a column matching the plural convention whose value `is not None`
  contributes `(derived_name + "s", sub_jsons)` where `sub_jsons` is the
  gathered list of expansions of the non-null elements — the list itself is
  always added, whether or not the model resolved;
* every other column contributes nothing. -/
def collect_subs (recur : ModelDesc → Value → Except Fault (Option Json))
    (reg : Registry) : List (String × Value) → Except Fault (List (String × Option Json))
  | [] => .ok []
  | (column, value) :: rest =>
    if is_model_id_or_uuid column then
      match get_model_by_name reg (joinedInitOfColumn column) with
      | some model =>
        match recur model value with
        | .error e => .error e
        | .ok sub_json =>
          match collect_subs recur reg rest with
          | .error e => .error e
          | .ok tail => .ok ((joinedInitOfColumn column, sub_json) :: tail)
      | none => collect_subs recur reg rest
    else if is_model_ids_or_uuids column then
      if value == Value.vNone then collect_subs recur reg rest
      else
        match pyIterate value with
        | .error e => .error e
        | .ok vals =>
          match expand_list recur (get_model_by_name reg (joinedInitOfColumn column))
              (vals.filter (fun v => !(v == Value.vNone))) with
          | .error e => .error e
          | .ok sub_jsons =>
            match collect_subs recur reg rest with
            | .error e => .error e
            | .ok tail =>
              .ok ((joinedInitOfColumn column ++ "s",
                    some (Json.arr (sub_jsons.map (fun o => o.getD Json.null)))) :: tail)
    else collect_subs recur reg rest

/-- `BaseRepository.__get_one_recursive`: fetch the base row (the `try`
around the fetch catches every exception and returns `None`), materialise
its columns, and at positive depth expand the foreign-key-shaped columns
one level, recursing at `recursive_depth - 1`. -/
def get_one_recursive (reg : Registry) (store : Store) :
    Nat → ModelDesc → Value → Except Fault (Option Json)
  | 0, m, item_id =>
    match get_entity_by_id_or_uuid store m item_id with
    | .error _ => .ok none
    | .ok none => .ok none
    | .ok (some row) =>
      .ok (some (Json.obj (add_fields_to_json (object_as_dict row) [])))
  | d + 1, m, item_id =>
    match get_entity_by_id_or_uuid store m item_id with
    | .error _ => .ok none
    | .ok none => .ok none
    | .ok (some row) =>
      match collect_subs (fun model v => get_one_recursive reg store d model v) reg row with
      | .error e => .error e
      | .ok adds =>
        .ok (some (Json.obj (add_fields_to_json (object_as_dict row) adds)))

/-- Nesting measure on documents: a JSON object counts as one level (a
relationship hop from its parent), arrays are transparent, primitives and
null are flat.  The root document of an expansion is level 1, so "no
nesting deeper than N hops below the root" reads `hopDepth ≤ N + 1`. -/
def hopDepth : Json → Nat
  | .null => 0
  | .prim _ => 0
  | .obj [] => 1
  | .obj ((_, j) :: rest) => max (1 + hopDepth j) (hopDepth (.obj rest))
  | .arr [] => 0
  | .arr (j :: rest) => max (hopDepth j) (hopDepth (.arr rest))

/-- A filter predicate built by `_process_filters_of_query_parameters`
(SQLAlchemy column expressions). -/
inductive Pred where
  /-- `getattr(model, field) == v` -/
  | eqTo (field : String) (v : Value)
  /-- `getattr(model, field).is_(None)` -/
  | isNull (field : String)
  /-- `getattr(model, field).in_(v)` -/
  | inSet (field : String) (v : Value)
  /-- `getattr(model, field).any(v)` (relationship containment) -/
  | anyOf (field : String) (v : Value)
deriving DecidableEq

/-- `dict.get(k)`: the stored value, or Python `None` when absent. -/
def qpGet (qp : List (String × Value)) (k : String) : Value :=
  ((List.lookup k qp).getD .vNone)

/-- `str(...)` conversion applied by the loop of
`_process_filters_of_query_parameters` to `UUID` values (scalar or inside a
list). -/
def convertUuids : Value → Value
  | .vUuid h => .vStr (uuidHyphenate h)
  | .vList items =>
    .vList (items.map (fun v =>
      match v with
      | .vUuid h => Value.vStr (uuidHyphenate h)
      | v => v))
  | v => v

/-- The `for param, value in processed_params.items()` loop of
`_process_filters_of_query_parameters`.  Each parameter contributes, in
order: an equality / IN-set / is-null predicate when its name ends in
`id`/`uuid`; a relationship-contains or fallback IN-set predicate when it
ends in `ids`/`uuids`; an equality predicate when its (original) value is a
`bool`.  `getattr(self.model, ...)` on an attribute the model lacks raises
`AttributeError`. -/
def process_params_loop (m : ModelDesc) :
    List (String × Value) → Except Fault (List Pred)
  | [] => .ok []
  | (param, value0) :: rest =>
    let value := convertUuids value0
    let idPart : Except Fault (List Pred) :=
      if is_model_id_or_uuid param then
        if m.attrs.contains param then
          match value with
          | .vNone => .ok [.isNull param]
          | .vList items => .ok [.inSet param (.vList items)]
          | v => .ok [.eqTo param v]
        else .error (.attributeError param)
      else .ok []
    let idsPart : Except Fault (List Pred) :=
      if is_model_ids_or_uuids param then
        if m.dictAttrs.contains param then
          if m.attrs.contains param then .ok [.anyOf param value]
          else .error (.attributeError param)
        else
          let singular := String.mk (param.toList.dropLast)
          if m.attrs.contains singular then .ok [.inSet singular value]
          else .error (.attributeError singular)
      else .ok []
    let boolPart : Except Fault (List Pred) :=
      match value0 with
      | .vBool _ =>
        if m.attrs.contains param then .ok [.eqTo param value]
        else .error (.attributeError param)
      | _ => .ok []
    match idPart with
    | .error e => .error e
    | .ok l1 =>
      match idsPart with
      | .error e => .error e
      | .ok l2 =>
        match boolPart with
        | .error e => .error e
        | .ok l3 =>
          match process_params_loop m rest with
          | .error e => .error e
          | .ok tail => .ok (l1 ++ l2 ++ l3 ++ tail)

/-- `BaseRepository._process_filters_of_query_parameters`.  An empty (or
absent) parameter mapping returns the incoming filters unchanged.
Otherwise: the legacy `user_id` parameter is rewritten to a `user_uuid`
equality when the model has a `user_uuid` attribute (and removed from the
working copy); each remaining parameter is translated by
`process_params_loop`; finally, a truthy `time_start`/`time_finish`
parameter calls `self.parse_datetime(...)` — no class in the
`BaseRepository` hierarchy defines `parse_datetime` (the function of that
name lives on `TimeManager` in `src/src/utils/managers/time_manager.py`
and is not inherited or imported here), so the attribute lookup raises
`AttributeError` before any temporal predicate can be built. -/
def _process_filters_of_query_parameters (m : ModelDesc) (filters : List Pred)
    (query_parameters : List (String × Value)) : Except Fault (List Pred) :=
  if query_parameters.isEmpty then .ok filters
  else
    let rewrite :=
      pyTruthy (qpGet query_parameters "user_id") && m.attrs.contains "user_uuid"
    let filters :=
      if rewrite then filters ++ [Pred.eqTo "user_uuid" (qpGet query_parameters "user_id")]
      else filters
    let processed_params :=
      if rewrite then query_parameters.filter (fun p => p.1 != "user_id")
      else query_parameters
    match process_params_loop m processed_params with
    | .error e => .error e
    | .ok loopPreds =>
      if pyTruthy (qpGet query_parameters "time_start")
          || pyTruthy (qpGet query_parameters "time_finish") then
        .error (.attributeError "parse_datetime")
      else .ok (filters ++ loopPreds)

/-- Whether a row satisfies one predicate, with SQL null semantics.  An
`IN` over a non-list never arises from the translator's reachable paths
and matches nothing. -/
def evalPred (r : Row) : Pred → Bool
  | .eqTo f v => sqlEq (rowGet r f) v
  | .isNull f => rowGet r f == Value.vNone
  | .inSet f v =>
    match v with
    | .vList items => items.any (fun x => sqlEq (rowGet r f) x)
    | _ => false
  | .anyOf f v =>
    match rowGet r f with
    | .vList items => items.any (fun x => sqlEq x v)
    | _ => false

def pyNatOf : Value → Nat
  | .vInt n => n.toNat
  | _ => 0

/-- Python `offset * limit` for the pagination convention. -/
def pyMulNat : Value → Value → Nat
  | .vInt a, .vInt b => (a * b).toNat
  | _, _ => 0

/-- The sequential list comprehension
`[await self.__get_one_recursive(...) for entity_id in all_db_entities_ids]`. -/
def expand_ids (reg : Registry) (store : Store) (m : ModelDesc)
    (recursive_depth : Nat) : List Value → Except Fault (List (Option Json))
  | [] => .ok []
  | entity_id :: rest =>
    match get_one_recursive reg store recursive_depth m entity_id with
    | .error e => .error e
    | .ok j =>
      match expand_ids reg store m recursive_depth rest with
      | .error e => .error e
      | .ok tail => .ok (j :: tail)

/-- `BaseRepository.__get_all_recursive`.  Both branches of the initial
UUID test build the same `select(self.model.id)` query.  When the
parameter mapping is truthy, filters are translated; only under
`if filters:` are the locals `limit` and `offset` assigned, yet
`if offset and limit:` reads them unconditionally — with a truthy mapping
producing no filters this raises `UnboundLocalError`.  When both
pagination values are truthy the query gets `offset(offset * limit)` (and
no limit); otherwise `limit(limit)` or `offset(offset)` alone.  Every
selected identifier is then expanded sequentially. -/
def get_all_recursive (reg : Registry) (store : Store) (m : ModelDesc)
    (query_parameters : List (String × Value)) (recursive_depth : Nat) :
    Except Fault (List (Option Json)) :=
  if query_parameters.isEmpty then
    expand_ids reg store m recursive_depth
      ((store.rows m.className).map (fun r => rowGet r "id"))
  else
    match _process_filters_of_query_parameters m [] query_parameters with
    | .error e => .error e
    | .ok filters =>
      if filters.isEmpty then .error (.unboundLocal "offset")
      else
        let matching :=
          (store.rows m.className).filter (fun r => filters.all (evalPred r))
        let ids := matching.map (fun r => rowGet r "id")
        let limit := qpGet query_parameters "limit"
        let offset := qpGet query_parameters "offset"
        let ids :=
          if pyTruthy offset && pyTruthy limit then ids.drop (pyMulNat offset limit)
          else if pyTruthy limit then ids.take (pyNatOf limit)
          else if pyTruthy offset then ids.drop (pyNatOf offset)
          else ids
        expand_ids reg store m recursive_depth ids

/-- `BaseRepository.get_entity_from_db_by_id`: for a model with `uuid` and
`id` attributes whose `id` column is UUID-typed, a string identifier is
first converted (`ValueError` is caught and yields `None`); then the
recursive expander runs at the requested depth. -/
def get_entity_from_db_by_id (reg : Registry) (store : Store) (m : ModelDesc)
    (entity_id : Value) (recursive_depth : Nat) : Except Fault (Option Json) :=
  if m.hasUuid && m.hasId && m.idIsUuid then
    match entity_id with
    | .vStr s =>
      match pythonUuidParse s with
      | some u => get_one_recursive reg store recursive_depth m (.vUuid u)
      | none => .ok none
    | v => get_one_recursive reg store recursive_depth m v
  else
    get_one_recursive reg store recursive_depth m entity_id

/-- `BaseRepository.create_entity_in_db`: insert the row (the embedding
takes the row with its database-side defaults already materialised, so the
`returning(self.model.id)` value is the row's `id` column), then re-fetch.
For a model with a `uuid` attribute and a UUID-typed `id` the created row
is returned flat via `__object_as_dict`; every other model re-reads through
`__get_one_recursive` at its default depth 2. -/
def create_entity_in_db (reg : Registry) (store : Store) (m : ModelDesc)
    (entity : Row) : Except Fault (Option Json) × Store :=
  let store1 := storeInsert store m.className entity
  let entity_from_db_id := rowGet entity "id"
  if m.hasUuid && m.idIsUuid then
    match fetchOneBy store1 m "id" entity_from_db_id with
    | .error e => (.error e, store1)
    | .ok (some created_entity) =>
      (.ok (some (Json.obj (object_as_dict created_entity))), store1)
    | .ok none => (get_one_recursive reg store1 2 m entity_from_db_id, store1)
  else
    (get_one_recursive reg store1 2 m entity_from_db_id, store1)

/-- `BaseRepository.update_entity_in_db`.  `entity` stands for
`entity.model_dump(exclude_unset=True)`: the mapping of the fields that
were explicitly set in the payload.  A model with a `uuid` attribute
addresses the row by `uuid` (string identifiers must parse as UUID — there
is no digit fallback here); other models address by integer `id`.  Fields
whose value is `None` are dropped; an empty remainder skips the UPDATE.
The second component is the session state after the call. -/
def update_entity_in_db (reg : Registry) (store : Store) (m : ModelDesc)
    (entity_id : Value) (entity : List (String × Value)) :
    Except Fault (Option Json) × Store :=
  let step1 : Except Fault (Value × String × Option Row) :=
    if m.hasUuid then
      match entity_id with
      | .vStr s =>
        match pythonUuidParse s with
        | none => .error (.notFound ("Invalid UUID format: " ++ s))
        | some u =>
          match fetchOneBy store m "uuid" (.vUuid u) with
          | .error e => .error e
          | .ok r => .ok (.vUuid u, "uuid", r)
      | v =>
        match fetchOneBy store m "uuid" v with
        | .error e => .error e
        | .ok r => .ok (v, "uuid", r)
    else
      let eid : Value :=
        match entity_id with
        | .vStr s => if pyIsDigit s then .vInt (pyInt s) else .vStr s
        | v => v
      match fetchOneBy store m "id" eid with
      | .error e => .error e
      | .ok r => .ok (eid, "id", r)
  match step1 with
  | .error e => (.error e, store)
  | .ok (eid, keyField, entity_from_db) =>
    match entity_from_db with
    | none =>
      (.error (.notFound ("Entity with id " ++ pyStrOfValue eid ++ " not found")), store)
    | some _ =>
      let update_data := entity.filter (fun p => !(p.2 == Value.vNone))
      if update_data.isEmpty then
        (get_one_recursive reg store 2 m eid, store)
      else
        let store2 := storeUpdate store m keyField eid update_data
        (get_one_recursive reg store2 2 m eid, store2)

/-- `BaseRepository.delete_entity_from_db_by_id`: resolve the identifier
through `__get_entity_by_id_or_uuid`; raise `NotFoundException` when
nothing resolves.  A model with a `uuid` attribute then deletes by `uuid`
(re-parsing a string identifier, where a parse failure raises
`NotFoundException` even though the entity was just found); other models
delete by integer `id`.  On success the HTTP 204 response is returned.
The second component is the session state after the call. -/
def delete_entity_from_db_by_id (store : Store) (m : ModelDesc)
    (entity_id : Value) : Except Fault Nat × Store :=
  match get_entity_by_id_or_uuid store m entity_id with
  | .error e => (.error e, store)
  | .ok none =>
    (.error (.notFound ("Entity with id " ++ pyStrOfValue entity_id ++ " not found")),
     store)
  | .ok (some _) =>
    if m.hasUuid then
      match entity_id with
      | .vStr s =>
        match pythonUuidParse s with
        | none => (.error (.notFound ("Invalid UUID format: " ++ s)), store)
        | some u => (.ok 204, storeDelete store m "uuid" (.vUuid u))
      | v => (.ok 204, storeDelete store m "uuid" v)
    else
      let eid : Value :=
        match entity_id with
        | .vStr s => if pyIsDigit s then .vInt (pyInt s) else .vStr s
        | v => v
      (.ok 204, storeDelete store m "id" eid)

/-- Python `str(exception)` for the messages the service layer copies into
`BadRequestException(error=str(ex))`.  Only the shape matters for the
claims: an `AttributeError` names the missing attribute, not any request
input. -/
def strOfFault : Fault → String
  | .valueError msg => msg
  | .notFound msg => msg
  | .attributeError attr => "object has no attribute " ++ attr
  | .typeFault msg => msg
  | .unboundLocal name => "cannot access local variable " ++ name
  | .internalFailure msg => msg
  | .multipleResults => "Multiple rows were found"
  | .badRequest msg => msg

/-- `BaseService.get_all_entities`: delegates to
`get_all_entities_from_db` (= `__get_all_recursive`; the interposed
`catch_error` decorator logs and re-raises) and converts any exception
whatsoever into `BadRequestException(error=str(ex))`.  The per-entity
response-schema projection is not modelled. -/
def get_all_entities (reg : Registry) (store : Store) (m : ModelDesc)
    (query_parameters : List (String × Value)) (recursive_depth : Nat) :
    Except Fault (List (Option Json)) :=
  match get_all_recursive reg store m query_parameters recursive_depth with
  | .ok all_entities => .ok all_entities
  | .error ex => .error (.badRequest (strOfFault ex))

/-! ### Concrete instances

Shapes taken from the repository's registered models: `User` carries an
integer `id` plus a secondary `uuid` (mixin `UUIDMixin`), while
`Organization`, `Notification` and `NotificationSettings` carry a
UUID-typed `id` and no `uuid` attribute.  `Team`-style models with an
`user_ids` column exercise the plural fan-out. -/

namespace Demo

def hexU1 : String := "aaaaaaaaaaaaaaaaaaaaaaaaaaaaaaaa"
def hexU2 : String := "bbbbbbbbbbbbbbbbbbbbbbbbbbbbbbbb"

def hexU3 : String := "cccccccccccccccccccccccccccccccc"
def hexO9 : String := "99999999999999999999999999999999"

def userModel : ModelDesc :=
  { className := "User", hasUuid := true, hasId := true, idIsUuid := false,
    attrs := ["id", "uuid", "email", "organization_id", "is_active", "user_uuid"],
    dictAttrs := [] }

def orgModel : ModelDesc :=
  { className := "Organization", hasUuid := false, hasId := true, idIsUuid := true,
    attrs := ["id", "name", "organization_id", "is_active"], dictAttrs := [] }

def teamModel : ModelDesc :=
  { className := "Team", hasUuid := false, hasId := true, idIsUuid := false,
    attrs := ["id", "user_ids"], dictAttrs := [] }

def ghostTeamModel : ModelDesc :=
  { className := "GhostTeam", hasUuid := false, hasId := true, idIsUuid := false,
    attrs := ["id", "ghost_ids"], dictAttrs := [] }

def userRow1 : Row :=
  [("id", .vInt 1), ("uuid", .vUuid hexU1), ("email", .vStr "a@b"),
   ("organization_id", .vUuid hexO9)]

def userRow2 : Row :=
  [("id", .vInt 2), ("uuid", .vUuid hexU2), ("email", .vStr "c@d"),
   ("organization_id", .vUuid hexO9)]

def orgRow : Row :=
  [("id", .vUuid hexO9), ("name", .vStr "Acme"), ("description", .vStr "Old")]

def teamRow : Row := [("id", .vInt 3), ("user_ids", .vList [.vInt 1, .vInt 2])]

def ghostRow : Row := [("id", .vInt 4), ("ghost_ids", .vList [.vInt 9])]

def demoReg : Registry := [userModel, orgModel, teamModel, ghostTeamModel]

def demoStore : Store :=
  { tables := [("User", [userRow1, userRow2]), ("Organization", [orgRow]),
               ("Team", [teamRow]), ("GhostTeam", [ghostRow])],
    failing := fun _ _ _ => false }

/-- The same data, but the storage round trip for `User` with `id = 1`
raises `DatabaseError`. -/
def failStore : Store :=
  { tables := demoStore.tables,
    failing := fun c f v => c == "User" && f == "id" && decide (v = Value.vInt 1) }

/-- A decimal string of 32 digits: a valid `uuid.UUID` literal. -/
def digits32 : String := "11111111111111111111111111111111"

def bigIdRow : Row :=
  [("id", .vInt 11111111111111111111111111111111), ("uuid", .vUuid hexU1),
   ("email", .vStr "big@b"), ("organization_id", .vNone)]

def bigIdStore : Store :=
  { tables := [("User", [bigIdRow])], failing := fun _ _ _ => false }

/-- A partial update payload (`model_dump(exclude_unset=True)`): `name`
set, `description` explicitly null. -/
def orgPayload : List (String × Value) :=
  [("name", .vStr "NewName"), ("description", .vNone)]

/-- A to-be-created user row with its DB-side defaults materialised. -/
def newUserRow : Row :=
  [("id", .vInt 5), ("uuid", .vUuid hexU3), ("email", .vStr "n@n"),
   ("organization_id", .vUuid hexO9)]

/-- Depth-0 (flat) documents of the demo rows. -/
def userDoc1flat : Json := .obj (object_as_dict userRow1)

def userDoc2flat : Json := .obj (object_as_dict userRow2)

def orgDocFlat : Json := .obj (object_as_dict orgRow)

/-- Depth-1 document of user 1: base columns plus the expanded
organization. -/
def userDoc1depth1 : Json :=
  .obj [("id", .prim (.vInt 1)), ("uuid", .prim (.vUuid hexU1)),
        ("email", .prim (.vStr "a@b")), ("organization_id", .prim (.vUuid hexO9)),
        ("organization", orgDocFlat)]

end Demo

/-! ### General lemmas -/

theorem eq_of_sqlEq {a b : Value} (h : sqlEq a b = true) : a = b := by
  unfold sqlEq at h
  cases a <;> cases b <;>
    first
      | cases h
      | rfl
      | exact of_decide_eq_true h

theorem lookup_map_if (tables : List (String × List Row)) (c : String)
    (f : List Row → List Row) :
    List.lookup c (tables.map (fun t => if t.1 == c then (t.1, f t.2) else t)) =
      (List.lookup c tables).map f := by
  induction tables with
  | nil => rfl
  | cons t ts ih =>
    obtain ⟨k, rows⟩ := t
    cases hkc : (k == c) with
    | true =>
      have hk : k = c := eq_of_beq hkc
      subst hk
      rw [List.map_cons, if_pos hkc]
      simp [List.lookup, hkc]
    | false =>
      have hck : (c == k) = false := by
        rw [beq_eq_false_iff_ne] at hkc ⊢
        exact fun e => hkc e.symm
      rw [List.map_cons, if_neg (by simp [hkc])]
      simp only [List.lookup, hck]
      exact ih

theorem storeDelete_rows (store : Store) (m : ModelDesc) (f : String) (v : Value) :
    (storeDelete store m f v).rows m.className =
      (store.rows m.className).filter (fun r => !(sqlEq (rowGet r f) v)) := by
  unfold storeDelete Store.rows
  rw [lookup_map_if]
  cases List.lookup m.className store.tables <;> rfl

theorem storeDelete_failing (store : Store) (m : ModelDesc) (f : String) (v : Value) :
    (storeDelete store m f v).failing = store.failing := rfl

theorem storeUpdate_rows (store : Store) (m : ModelDesc) (f : String) (v : Value)
    (upd : List (String × Value)) :
    (storeUpdate store m f v upd).rows m.className =
      (store.rows m.className).map
        (fun r => if sqlEq (rowGet r f) v then rowUpdate r upd else r) := by
  unfold storeUpdate Store.rows
  rw [lookup_map_if]
  cases List.lookup m.className store.tables <;> rfl

theorem rowUpdate_lookup (R : Row) (upd : List (String × Value)) (k : String) :
    List.lookup k (rowUpdate R upd) =
      (List.lookup k R).map (fun v0 => ((List.lookup k upd).getD v0)) := by
  induction R with
  | nil => rfl
  | cons p rest ih =>
    obtain ⟨k0, v0⟩ := p
    unfold rowUpdate at ih ⊢
    by_cases h : k = k0
    · subst h
      cases hu : List.lookup k upd <;> simp [List.lookup, List.map, hu]
    · have hkk : (k == k0) = false := beq_eq_false_iff_ne.mpr h
      cases hu : List.lookup k0 upd <;> simp [List.lookup, List.map, hkk, hu, ih]

/-- A successful lookup implies the store was not failing on it. -/
theorem fetchOneBy_ok_not_failing {store : Store} {m : ModelDesc} {f : String}
    {v : Value} {r : Option Row} (h : fetchOneBy store m f v = .ok r) :
    store.failing m.className f v = false := by
  unfold fetchOneBy at h
  by_cases hf : store.failing m.className f v = true
  · rw [if_pos hf] at h
    cases h
  · exact eq_false_of_ne_true hf

/-! ### Lemmas about the nesting measure of expanded documents -/

theorem hopDepth_obj_le (k : Nat) :
    ∀ (fields : List (String × Json)), (∀ p ∈ fields, hopDepth p.2 ≤ k) →
      hopDepth (Json.obj fields) ≤ k + 1 := by
  intro fields
  induction fields with
  | nil =>
    intro _
    simp [hopDepth]
  | cons p rest ih =>
    intro h
    obtain ⟨name, j⟩ := p
    rw [hopDepth]
    apply max_le
    · have hj : hopDepth j ≤ k := h (name, j) (by simp)
      omega
    · exact ih (fun q hq => h q (by simp [hq]))

theorem hopDepth_arr_le (k : Nat) :
    ∀ (items : List Json), (∀ j ∈ items, hopDepth j ≤ k) →
      hopDepth (Json.arr items) ≤ k := by
  intro items
  induction items with
  | nil =>
    intro _
    simp [hopDepth]
  | cons j rest ih =>
    intro h
    rw [hopDepth]
    apply max_le
    · exact h j (by simp)
    · exact ih (fun q hq => h q (by simp [hq]))

theorem mem_dictInsert {p : String × Json} :
    ∀ (l : List (String × Json)) (k : String) (v : Json),
      p ∈ dictInsert l k v → p = (k, v) ∨ p ∈ l := by
  intro l
  induction l with
  | nil =>
    intro k v h
    unfold dictInsert at h
    rcases List.mem_singleton.mp h with h1
    exact Or.inl h1
  | cons q rest ih =>
    intro k v h
    obtain ⟨k0, v0⟩ := q
    unfold dictInsert at h
    by_cases hk : (k0 == k) = true
    · rw [if_pos hk] at h
      rcases List.mem_cons.mp h with h1 | h2
      · exact Or.inl h1
      · exact Or.inr (List.mem_cons_of_mem _ h2)
    · rw [if_neg hk] at h
      rcases List.mem_cons.mp h with h1 | h2
      · exact Or.inr (by simp [h1])
      · rcases ih k v h2 with h3 | h4
        · exact Or.inl h3
        · exact Or.inr (List.mem_cons_of_mem _ h4)

theorem add_fields_mem {p : String × Json} :
    ∀ (adds : List (String × Option Json)) (base : List (String × Json)),
      p ∈ add_fields_to_json base adds →
        p ∈ base ∨ ∃ q ∈ adds, q.2 = some p.2 := by
  intro adds
  induction adds with
  | nil =>
    intro base h
    exact Or.inl h
  | cons a rest ih =>
    intro base h
    obtain ⟨name, osub⟩ := a
    cases osub with
    | some s =>
      simp only [add_fields_to_json] at h
      rcases ih _ h with h1 | ⟨q, hq, he⟩
      · rcases mem_dictInsert _ _ _ h1 with h2 | h3
        · refine Or.inr ⟨(name, some s), by simp, ?_⟩
          rw [h2]
        · exact Or.inl h3
      · exact Or.inr ⟨q, by simp [hq], he⟩
    | none =>
      simp only [add_fields_to_json] at h
      rcases ih _ h with h1 | ⟨q, hq, he⟩
      · exact Or.inl h1
      · exact Or.inr ⟨q, by simp [hq], he⟩

theorem object_as_dict_prim {p : String × Json} {r : Row}
    (h : p ∈ object_as_dict r) : hopDepth p.2 = 0 := by
  unfold object_as_dict at h
  rcases List.mem_map.mp h with ⟨q, _, he⟩
  rw [← he]
  simp [hopDepth]

theorem expand_list_bound {recur : ModelDesc → Value → Except Fault (Option Json)}
    {B : Nat} (hrec : ∀ model v j, recur model v = .ok (some j) → hopDepth j ≤ B)
    (modelOpt : Option ModelDesc) :
    ∀ (l : List Value) (subs : List (Option Json)),
      expand_list recur modelOpt l = .ok subs →
        ∀ o ∈ subs, ∀ j, o = some j → hopDepth j ≤ B := by
  intro l
  induction l with
  | nil =>
    intro subs h o ho j hj
    unfold expand_list at h
    obtain rfl : ([] : List (Option Json)) = subs := by injection h
    cases ho
  | cons val rest ih =>
    intro subs h o ho j hj
    unfold expand_list at h
    cases modelOpt with
    | none =>
      dsimp only at h
      cases ht : expand_list recur none rest with
      | error e =>
        rw [ht] at h
        cases h
      | ok tail =>
        rw [ht] at h
        obtain rfl : (none : Option Json) :: tail = subs := by injection h
        rcases List.mem_cons.mp ho with h1 | h2
        · subst h1
          cases hj
        · exact ih tail ht o h2 j hj
    | some model =>
      dsimp only at h
      cases hr : recur model val with
      | error e =>
        rw [hr] at h
        cases h
      | ok sub =>
        rw [hr] at h
        cases ht : expand_list recur (some model) rest with
        | error e =>
          rw [ht] at h
          cases h
        | ok tail =>
          rw [ht] at h
          obtain rfl : sub :: tail = subs := by injection h
          rcases List.mem_cons.mp ho with h1 | h2
          · subst h1
            subst hj
            exact hrec model val j hr
          · exact ih tail ht o h2 j hj

theorem collect_subs_bound {recur : ModelDesc → Value → Except Fault (Option Json)}
    {B : Nat} (hrec : ∀ model v j, recur model v = .ok (some j) → hopDepth j ≤ B)
    (reg : Registry) :
    ∀ (l : List (String × Value)) (adds : List (String × Option Json)),
      collect_subs recur reg l = .ok adds →
        ∀ q ∈ adds, ∀ j, q.2 = some j → hopDepth j ≤ B := by
  intro l
  induction l with
  | nil =>
    intro adds h q hq j hj
    unfold collect_subs at h
    obtain rfl : ([] : List (String × Option Json)) = adds := by injection h
    cases hq
  | cons cv rest ih =>
    intro adds h q hq j hj
    obtain ⟨column, value⟩ := cv
    unfold collect_subs at h
    by_cases h1 : is_model_id_or_uuid column = true
    · rw [if_pos h1] at h
      cases hm : get_model_by_name reg (joinedInitOfColumn column) with
      | some model =>
        rw [hm] at h
        dsimp only at h
        cases hr : recur model value with
        | error e =>
          rw [hr] at h
          cases h
        | ok sub =>
          rw [hr] at h
          cases hc : collect_subs recur reg rest with
          | error e =>
            rw [hc] at h
            cases h
          | ok tail =>
            rw [hc] at h
            obtain rfl : (joinedInitOfColumn column, sub) :: tail = adds := by injection h
            rcases List.mem_cons.mp hq with hqe | hq2
            · subst hqe
              simp only at hj
              subst hj
              exact hrec model value j hr
            · exact ih tail hc q hq2 j hj
      | none =>
        rw [hm] at h
        dsimp only at h
        exact ih adds h q hq j hj
    · rw [if_neg h1] at h
      by_cases h2 : is_model_ids_or_uuids column = true
      · rw [if_pos h2] at h
        by_cases h3 : (value == Value.vNone) = true
        · rw [if_pos h3] at h
          exact ih adds h q hq j hj
        · rw [if_neg h3] at h
          cases hi : pyIterate value with
          | error e =>
            rw [hi] at h
            cases h
          | ok vals =>
            rw [hi] at h
            dsimp only at h
            cases he : expand_list recur (get_model_by_name reg (joinedInitOfColumn column))
                (vals.filter (fun v => !(v == Value.vNone))) with
            | error e =>
              rw [he] at h
              cases h
            | ok sub_jsons =>
              rw [he] at h
              dsimp only at h
              cases hc : collect_subs recur reg rest with
              | error e =>
                rw [hc] at h
                cases h
              | ok tail =>
                rw [hc] at h
                obtain rfl :
                    (joinedInitOfColumn column ++ "s",
                      some (Json.arr (sub_jsons.map (fun o => o.getD Json.null)))) :: tail
                      = adds := by injection h
                rcases List.mem_cons.mp hq with hqe | hq2
                · subst hqe
                  simp only [Option.some.injEq] at hj
                  subst hj
                  apply hopDepth_arr_le
                  intro x hx
                  rcases List.mem_map.mp hx with ⟨o, ho, hxo⟩
                  cases o with
                  | none =>
                    rw [← hxo]
                    simp [hopDepth]
                  | some j0 =>
                    rw [← hxo]
                    exact expand_list_bound hrec _ _ _ he (some j0) ho j0 rfl
                · exact ih tail hc q hq2 j hj
      · rw [if_neg h2] at h
        exact ih adds h q hq j hj

theorem pyIterate_error {v : Value} {e : Fault} (h : pyIterate v = .error e) :
    ∃ msg, e = .typeFault msg := by
  cases v <;> simp [pyIterate] at h <;> exact ⟨_, h.symm⟩

theorem expand_list_error {recur : ModelDesc → Value → Except Fault (Option Json)}
    {modelOpt : Option ModelDesc} :
    ∀ {l : List Value} {e : Fault}, expand_list recur modelOpt l = .error e →
      ∃ model v, recur model v = .error e := by
  intro l
  induction l with
  | nil =>
    intro e h
    cases h
  | cons val rest ih =>
    intro e h
    unfold expand_list at h
    cases modelOpt with
    | none =>
      dsimp only at h
      cases ht : expand_list recur none rest with
      | error e2 =>
        rw [ht] at h
        obtain rfl : e2 = e := by injection h
        exact ih ht
      | ok tail =>
        rw [ht] at h
        cases h
    | some model =>
      dsimp only at h
      cases hr : recur model val with
      | error e2 =>
        rw [hr] at h
        obtain rfl : e2 = e := by injection h
        exact ⟨model, val, hr⟩
      | ok sub =>
        rw [hr] at h
        dsimp only at h
        cases ht : expand_list recur (some model) rest with
        | error e2 =>
          rw [ht] at h
          obtain rfl : e2 = e := by injection h
          exact ih ht
        | ok tail =>
          rw [ht] at h
          cases h

theorem collect_subs_error {recur : ModelDesc → Value → Except Fault (Option Json)}
    {reg : Registry} :
    ∀ {l : List (String × Value)} {e : Fault}, collect_subs recur reg l = .error e →
      (∃ model v, recur model v = .error e) ∨ ∃ msg, e = .typeFault msg := by
  intro l
  induction l with
  | nil =>
    intro e h
    cases h
  | cons cv rest ih =>
    intro e h
    obtain ⟨column, value⟩ := cv
    unfold collect_subs at h
    by_cases h1 : is_model_id_or_uuid column = true
    · rw [if_pos h1] at h
      cases hm : get_model_by_name reg (joinedInitOfColumn column) with
      | some model =>
        rw [hm] at h
        dsimp only at h
        cases hr : recur model value with
        | error e2 =>
          rw [hr] at h
          obtain rfl : e2 = e := by injection h
          exact Or.inl ⟨model, value, hr⟩
        | ok sub =>
          rw [hr] at h
          dsimp only at h
          cases hc : collect_subs recur reg rest with
          | error e2 =>
            rw [hc] at h
            obtain rfl : e2 = e := by injection h
            exact ih hc
          | ok tail =>
            rw [hc] at h
            cases h
      | none =>
        rw [hm] at h
        dsimp only at h
        exact ih h
    · rw [if_neg h1] at h
      by_cases h2 : is_model_ids_or_uuids column = true
      · rw [if_pos h2] at h
        by_cases h3 : (value == Value.vNone) = true
        · rw [if_pos h3] at h
          exact ih h
        · rw [if_neg h3] at h
          cases hi : pyIterate value with
          | error e2 =>
            rw [hi] at h
            obtain rfl : e2 = e := by injection h
            exact Or.inr (pyIterate_error hi)
          | ok vals =>
            rw [hi] at h
            dsimp only at h
            cases he : expand_list recur (get_model_by_name reg (joinedInitOfColumn column))
                (vals.filter (fun v => !(v == Value.vNone))) with
            | error e2 =>
              rw [he] at h
              obtain rfl : e2 = e := by injection h
              exact Or.inl (expand_list_error he)
            | ok sub_jsons =>
              rw [he] at h
              dsimp only at h
              cases hc : collect_subs recur reg rest with
              | error e2 =>
                rw [hc] at h
                obtain rfl : e2 = e := by injection h
                exact ih hc
              | ok tail =>
                rw [hc] at h
                cases h
      · rw [if_neg h2] at h
        exact ih h

/-- A storage failure (`DatabaseError`) never escapes the recursive
expander: every fault raised by a base fetch — of the root or of any
branch — is caught by the `try`/`except` around
`__get_entity_by_id_or_uuid` of the corresponding (sub-)call. -/
theorem get_one_recursive_no_internal (reg : Registry) (store : Store) :
    ∀ (d : Nat) (m : ModelDesc) (item_id : Value) (msg : String),
      get_one_recursive reg store d m item_id ≠ .error (.internalFailure msg) := by
  intro d
  induction d with
  | zero =>
    intro m item_id msg h
    unfold get_one_recursive at h
    cases hf : get_entity_by_id_or_uuid store m item_id with
    | error e =>
      rw [hf] at h
      cases h
    | ok o =>
      cases o with
      | none =>
        rw [hf] at h
        cases h
      | some row =>
        rw [hf] at h
        cases h
  | succ d ih =>
    intro m item_id msg h
    unfold get_one_recursive at h
    cases hf : get_entity_by_id_or_uuid store m item_id with
    | error e =>
      rw [hf] at h
      cases h
    | ok o =>
      cases o with
      | none =>
        rw [hf] at h
        cases h
      | some row =>
        rw [hf] at h
        dsimp only at h
        cases hc : collect_subs (fun model v => get_one_recursive reg store d model v)
            reg row with
        | error e =>
          rw [hc] at h
          obtain rfl : e = .internalFailure msg := by injection h
          rcases collect_subs_error hc with ⟨model, v, hr⟩ | ⟨msg2, hmsg⟩
          · exact ih model v msg hr
          · cases hmsg
        | ok adds =>
          rw [hc] at h
          cases h

/-- Depth bound of the recursive expander: a successful expansion at depth
`d` produces a document whose nesting measure is at most `d + 1` (the root
object plus at most `d` relationship hops). -/
theorem get_one_recursive_hopDepth (reg : Registry) (store : Store) :
    ∀ (d : Nat) (m : ModelDesc) (item_id : Value) (j : Json),
      get_one_recursive reg store d m item_id = .ok (some j) → hopDepth j ≤ d + 1 := by
  intro d
  induction d with
  | zero =>
    intro m item_id j h
    unfold get_one_recursive at h
    cases hf : get_entity_by_id_or_uuid store m item_id with
    | error e =>
      rw [hf] at h
      cases h
    | ok o =>
      cases o with
      | none =>
        rw [hf] at h
        cases h
      | some row =>
        rw [hf] at h
        simp only [Except.ok.injEq, Option.some.injEq] at h
        subst h
        apply hopDepth_obj_le 0
        intro p hp
        simp only [add_fields_to_json] at hp
        rw [object_as_dict_prim hp]
  | succ d ih =>
    intro m item_id j h
    unfold get_one_recursive at h
    cases hf : get_entity_by_id_or_uuid store m item_id with
    | error e =>
      rw [hf] at h
      cases h
    | ok o =>
      cases o with
      | none =>
        rw [hf] at h
        cases h
      | some row =>
        rw [hf] at h
        dsimp only at h
        cases hc : collect_subs (fun model v => get_one_recursive reg store d model v)
            reg row with
        | error e =>
          rw [hc] at h
          cases h
        | ok adds =>
          rw [hc] at h
          simp only [Except.ok.injEq, Option.some.injEq] at h
          subst h
          apply hopDepth_obj_le (d + 1)
          intro p hp
          rcases add_fields_mem _ _ hp with h1 | ⟨q, hq, he⟩
          · rw [object_as_dict_prim h1]
            omega
          · exact collect_subs_bound (fun model v j0 hj0 => ih model v j0 hj0)
              reg row adds hc q hq p.2 he

/-! ### Claim theorems -/

/-- C1: for every entity and every recursion depth `N ≥ 0`, the document
returned by `__get_one_recursive` contains no nesting deeper than `N`
relationship hops (the root object is level 1, so its measure is at most
`N + 1`), and at depth 0 it is exactly the scalar projection of the base
row, with no nested sub-documents. -/
theorem C1_depth_bound (reg : Registry) (store : Store) (m : ModelDesc)
    (item_id : Value) :
    (∀ (d : Nat) (j : Json), get_one_recursive reg store d m item_id = .ok (some j) →
        hopDepth j ≤ d + 1) ∧
    (∀ (j : Json), get_one_recursive reg store 0 m item_id = .ok (some j) →
        ∃ row, get_entity_by_id_or_uuid store m item_id = .ok (some row) ∧
          j = Json.obj (object_as_dict row)) := by
  constructor
  · exact fun d j h => get_one_recursive_hopDepth reg store d m item_id j h
  · intro j h
    unfold get_one_recursive at h
    cases hf : get_entity_by_id_or_uuid store m item_id with
    | error e =>
      rw [hf] at h
      cases h
    | ok o =>
      cases o with
      | none =>
        rw [hf] at h
        cases h
      | some row =>
        rw [hf] at h
        simp only [Except.ok.injEq, Option.some.injEq] at h
        exact ⟨row, rfl, h.symm⟩

/-- Witness for C1: the demo user expanded at depth 1 nests exactly one
hop, and the depth-0 expansion is the flat row projection. -/
theorem C1_depth_bound_witness :
    hopDepth Demo.userDoc1depth1 ≤ 2 ∧
      ∃ row, get_entity_by_id_or_uuid Demo.demoStore Demo.userModel (.vInt 1) =
          .ok (some row) ∧ Demo.userDoc1flat = Json.obj (object_as_dict row) := by
  constructor
  · exact (C1_depth_bound Demo.demoReg Demo.demoStore Demo.userModel (.vInt 1)).1 1
      Demo.userDoc1depth1 (by rfl)
  · exact (C1_depth_bound Demo.demoReg Demo.demoStore Demo.userModel (.vInt 1)).2
      Demo.userDoc1flat (by rfl)

/-- C4 counterexample: the store raises `DatabaseError` (an
InternalFailure) while fetching user 1, one branch of the plural fan-out
of team 3; yet the expansion of the team does not abort and does not
propagate the failure — it returns the document with `null` for the failed
branch and the sibling branch fully expanded.  This refutes the claimed
exception for InternalFailure. -/
theorem C4_counterexample :
    get_one_recursive Demo.demoReg Demo.failStore 1 Demo.teamModel (.vInt 3) =
      .ok (some (.obj [("id", .prim (.vInt 3)),
                       ("user_ids", .prim (.vList [.vInt 1, .vInt 2])),
                       ("users", .arr [.null, Demo.userDoc2flat])])) ∧
    fetchOneBy Demo.failStore Demo.userModel "id" (.vInt 1) =
      .error (.internalFailure "DatabaseError") :=
  ⟨rfl, rfl⟩

/-- C4 (amended): a failure inside one branch of the plural fan-out never
aborts sibling branches and resolves to `null` for that branch alone —
including an `InternalFailure` of the storage round trip, which is caught
by the `except Exception` around the branch's base fetch and never
propagates out of the expansion. -/
theorem C4_branch_failure_resolves_null (reg : Registry) (store : Store) :
    (∀ (d : Nat) (m : ModelDesc) (v : Value) (e : Fault),
        get_entity_by_id_or_uuid store m v = .error e →
          get_one_recursive reg store d m v = .ok none) ∧
    (∀ (d : Nat) (m : ModelDesc) (v : Value) (msg : String),
        get_one_recursive reg store d m v ≠ .error (.internalFailure msg)) := by
  constructor
  · intro d m v e h
    cases d <;> (unfold get_one_recursive; rw [h])
  · exact fun d m v msg => get_one_recursive_no_internal reg store d m v msg

/-- Witness for C4 (amended) on the failing demo store: the failing
branch's own expansion resolves to `None`, and the parent expansion is not
an internal error. -/
theorem C4_branch_failure_resolves_null_witness :
    get_one_recursive Demo.demoReg Demo.failStore 1 Demo.userModel (.vInt 1) = .ok none ∧
    get_one_recursive Demo.demoReg Demo.failStore 1 Demo.teamModel (.vInt 3) ≠
      .error (.internalFailure "DatabaseError") := by
  constructor
  · exact (C4_branch_failure_resolves_null Demo.demoReg Demo.failStore).1 1
      Demo.userModel (.vInt 1) (.internalFailure "DatabaseError") (by rfl)
  · exact (C4_branch_failure_resolves_null Demo.demoReg Demo.failStore).2 1
      Demo.teamModel (.vInt 3) "DatabaseError"

/-- C9 counterexample: `GhostTeam` has a plural column `ghost_ids` whose
derived entity name (`Ghost`) resolves to no registered model; expansion
is not silently omitted — the pluralized key `ghosts` is added to the
parent document bound to a list of nulls. -/
theorem C9_counterexample :
    get_model_by_name Demo.demoReg "ghost" = none ∧
    get_one_recursive Demo.demoReg Demo.demoStore 1 Demo.ghostTeamModel (.vInt 4) =
      .ok (some (.obj [("id", .prim (.vInt 4)),
                       ("ghost_ids", .prim (.vList [.vInt 9])),
                       ("ghosts", .arr [.null])])) :=
  ⟨rfl, rfl⟩

/-- C9 (amended): silent omission holds for singular foreign-key fields
only.  A singular column whose derived model is unregistered contributes
nothing; a singular branch whose expansion resolves to `None` is collected
but dropped by `__add_fields_to_json`, so no key is added.  A plural
column with a non-null list, however, always adds its pluralized key: an
unregistered plural model yields a list of nulls, and unresolved elements
stay as nulls inside the list; no error is raised and the rest of the
document is still returned. -/
theorem C9_singular_omitted_plural_kept :
    (∀ (recur : ModelDesc → Value → Except Fault (Option Json)) (reg : Registry)
        (column : String) (value : Value) (rest : List (String × Value)),
        is_model_id_or_uuid column = true →
        get_model_by_name reg (joinedInitOfColumn column) = none →
          collect_subs recur reg ((column, value) :: rest) = collect_subs recur reg rest) ∧
    (∀ (recur : ModelDesc → Value → Except Fault (Option Json)) (reg : Registry)
        (column : String) (value : Value) (rest : List (String × Value))
        (model : ModelDesc) (tail : List (String × Option Json)),
        is_model_id_or_uuid column = true →
        get_model_by_name reg (joinedInitOfColumn column) = some model →
        recur model value = .ok none →
        collect_subs recur reg rest = .ok tail →
          collect_subs recur reg ((column, value) :: rest) =
            .ok ((joinedInitOfColumn column, none) :: tail)) ∧
    (∀ (base : List (String × Json)) (name : String)
        (adds : List (String × Option Json)),
        add_fields_to_json base ((name, none) :: adds) = add_fields_to_json base adds) ∧
    (∀ (recur : ModelDesc → Value → Except Fault (Option Json)) (reg : Registry)
        (column : String) (vs : List Value) (rest : List (String × Value))
        (subs : List (Option Json)) (tail : List (String × Option Json)),
        is_model_id_or_uuid column = false →
        is_model_ids_or_uuids column = true →
        expand_list recur (get_model_by_name reg (joinedInitOfColumn column))
          (vs.filter (fun v => !(v == Value.vNone))) = .ok subs →
        collect_subs recur reg rest = .ok tail →
          collect_subs recur reg ((column, .vList vs) :: rest) =
            .ok ((joinedInitOfColumn column ++ "s",
                  some (Json.arr (subs.map (fun o => o.getD Json.null)))) :: tail)) ∧
    (∀ (recur : ModelDesc → Value → Except Fault (Option Json)) (l : List Value),
        expand_list recur none l = .ok (l.map (fun _ => (none : Option Json)))) := by
  refine ⟨?_, ?_, ?_, ?_, ?_⟩
  · intro recur reg column value rest h1 hm
    conv_lhs => unfold collect_subs
    rw [if_pos h1, hm]
  · intro recur reg column value rest model tail h1 hm hr hc
    conv_lhs => unfold collect_subs
    rw [if_pos h1, hm]
    dsimp only
    rw [hr]
    dsimp only
    rw [hc]
  · intro base name adds
    rfl
  · intro recur reg column vs rest subs tail h1 h2 he hc
    conv_lhs => unfold collect_subs
    rw [if_neg (by simp [h1]), if_pos h2, if_neg (by simp)]
    dsimp only [pyIterate]
    rw [he]
    dsimp only
    rw [hc]
  · intro recur l
    induction l with
    | nil => rfl
    | cons v rest ih =>
      conv_lhs => unfold expand_list
      dsimp only
      rw [ih]
      rfl

/-- Witness for C9 (amended) on the demo data: an unresolved singular
column is skipped, a `None` singular branch is collected then dropped, and
the `ghosts` plural key is added bound to `[null]`. -/
theorem C9_singular_omitted_plural_kept_witness :
    (collect_subs (fun model v => get_one_recursive Demo.demoReg Demo.demoStore 0 model v)
        Demo.demoReg [("phantom_id", .vInt 7)] =
      collect_subs (fun model v => get_one_recursive Demo.demoReg Demo.demoStore 0 model v)
        Demo.demoReg []) ∧
    (collect_subs (fun model v => get_one_recursive Demo.demoReg Demo.demoStore 0 model v)
        Demo.demoReg [("organization_id", .vStr "zz")] = .ok [("organization", none)]) ∧
    (add_fields_to_json (object_as_dict Demo.teamRow) [("organization", none)] =
      add_fields_to_json (object_as_dict Demo.teamRow) []) ∧
    (collect_subs (fun model v => get_one_recursive Demo.demoReg Demo.demoStore 0 model v)
        Demo.demoReg [("ghost_ids", .vList [.vInt 9])] =
      .ok [("ghosts", some (.arr [.null]))]) ∧
    (expand_list (fun model v => get_one_recursive Demo.demoReg Demo.demoStore 0 model v)
        none [.vInt 9] = .ok [none]) := by
  refine ⟨?_, ?_, ?_, ?_, ?_⟩
  · exact C9_singular_omitted_plural_kept.1
      (fun model v => get_one_recursive Demo.demoReg Demo.demoStore 0 model v)
      Demo.demoReg "phantom_id" (.vInt 7) [] (by rfl) (by rfl)
  · exact C9_singular_omitted_plural_kept.2.1
      (fun model v => get_one_recursive Demo.demoReg Demo.demoStore 0 model v)
      Demo.demoReg "organization_id" (.vStr "zz") [] Demo.orgModel [] (by rfl) (by rfl)
      (by rfl) (by rfl)
  · exact C9_singular_omitted_plural_kept.2.2.1 (object_as_dict Demo.teamRow)
      "organization" []
  · exact C9_singular_omitted_plural_kept.2.2.2.1
      (fun model v => get_one_recursive Demo.demoReg Demo.demoStore 0 model v)
      Demo.demoReg "ghost_ids" [.vInt 9] [] [none] [] (by rfl) (by rfl) (by rfl) (by rfl)
  · exact C9_singular_omitted_plural_kept.2.2.2.2
      (fun model v => get_one_recursive Demo.demoReg Demo.demoStore 0 model v) [.vInt 9]

/-- C3 counterexample: on a dual-key model (`User`: integer `id` plus
secondary `uuid`), the all-digits string of 32 ones parses as a UUID
(`uuid.UUID` accepts any 32 hex digits), so resolution looks it up by
`uuid` and finds nothing — it does **not** fall back to the integer-id
lookup, which would have found the stored row. -/
theorem C3_counterexample :
    pyIsDigit Demo.digits32 = true ∧
    get_entity_by_id_or_uuid Demo.bigIdStore Demo.userModel (.vStr Demo.digits32) =
      .ok none ∧
    fetchOneBy Demo.bigIdStore Demo.userModel "id" (.vInt (pyInt Demo.digits32)) =
      .ok (some Demo.bigIdRow) :=
  ⟨rfl, rfl, rfl⟩

/-- C3 (amended): a malformed raw identifier string resolves to "not
found" and never to a type or database fault: on a model with `uuid` and
`id` attributes the resolver returns `None` without touching the store,
and on an id-only model the raw string reaches the store (modelled per its
interface as `fetchOne -> row | null`) and matches no well-typed row; the
delete operation then raises `NotFoundException`.  The integer-id fallback
for dual-key models applies exactly to all-digits strings that fail the
token parse (an all-digits string of 32 digits parses as a token and is
looked up by `uuid` instead). -/
theorem C3_malformed_not_found :
    (∀ (store : Store) (m : ModelDesc) (s : String),
        m.hasUuid = true → m.hasId = true →
        pythonUuidParse s = none → pyIsDigit s = false →
          get_entity_by_id_or_uuid store m (.vStr s) = .ok none ∧
          (delete_entity_from_db_by_id store m (.vStr s)).1 =
            .error (.notFound ("Entity with id " ++ s ++ " not found"))) ∧
    (∀ (store : Store) (m : ModelDesc) (s : String),
        m.hasUuid = false → pyIsDigit s = false →
        (∀ r ∈ store.rows m.className, rowGet r "id" ≠ .vStr s) →
        store.failing m.className "id" (.vStr s) = false →
          get_entity_by_id_or_uuid store m (.vStr s) = .ok none ∧
          (delete_entity_from_db_by_id store m (.vStr s)).1 =
            .error (.notFound ("Entity with id " ++ s ++ " not found"))) ∧
    (∀ (store : Store) (m : ModelDesc) (s : String),
        m.hasUuid = true → m.hasId = true → m.idIsUuid = false →
        pythonUuidParse s = none → pyIsDigit s = true →
          get_entity_by_id_or_uuid store m (.vStr s) =
            fetchOneBy store m "id" (.vInt (pyInt s))) := by
  refine ⟨?_, ?_, ?_⟩
  · intro store m s hU hI hP hD
    have hres : get_entity_by_id_or_uuid store m (.vStr s) = .ok none := by
      unfold get_entity_by_id_or_uuid
      cases hIU : m.idIsUuid <;> simp [hU, hI, hIU, hP, hD]
    refine ⟨hres, ?_⟩
    unfold delete_entity_from_db_by_id
    rw [hres]
    rfl
  · intro store m s hU hD hRows hFail
    have hfilter : (store.rows m.className).filter
        (fun r => sqlEq (rowGet r "id") (.vStr s)) = [] := by
      rw [List.filter_eq_nil_iff]
      intro r hr hcontra
      exact hRows r hr (eq_of_sqlEq (by simpa using hcontra))
    have hres : get_entity_by_id_or_uuid store m (.vStr s) = .ok none := by
      unfold get_entity_by_id_or_uuid fetchOneBy
      simp [hU, hD, hFail, hfilter]
    refine ⟨hres, ?_⟩
    unfold delete_entity_from_db_by_id
    rw [hres]
    rfl
  · intro store m s hU hI hIU hP hD
    unfold get_entity_by_id_or_uuid
    simp [hU, hI, hIU, hP, hD]

/-- Witness for C3 (amended): the malformed literal `"zzz"` resolves to
not-found on the dual-key `User` model and on the uuid-primary-key
`Organization` model, and the digit string `"7"` takes the integer-id
fallback on `User`. -/
theorem C3_malformed_not_found_witness :
    (get_entity_by_id_or_uuid Demo.demoStore Demo.userModel (.vStr "zzz") = .ok none ∧
      (delete_entity_from_db_by_id Demo.demoStore Demo.userModel (.vStr "zzz")).1 =
        .error (.notFound "Entity with id zzz not found")) ∧
    (get_entity_by_id_or_uuid Demo.demoStore Demo.orgModel (.vStr "zzz") = .ok none ∧
      (delete_entity_from_db_by_id Demo.demoStore Demo.orgModel (.vStr "zzz")).1 =
        .error (.notFound "Entity with id zzz not found")) ∧
    get_entity_by_id_or_uuid Demo.demoStore Demo.userModel (.vStr "7") =
      fetchOneBy Demo.demoStore Demo.userModel "id" (.vInt (pyInt "7")) := by
  refine ⟨?_, ?_, ?_⟩
  · exact C3_malformed_not_found.1 Demo.demoStore Demo.userModel "zzz" (by rfl) (by rfl)
      (by rfl) (by rfl)
  · exact C3_malformed_not_found.2.1 Demo.demoStore Demo.orgModel "zzz" (by rfl) (by rfl)
      (by decide) (by rfl)
  · exact C3_malformed_not_found.2.2 Demo.demoStore Demo.userModel "7" (by rfl) (by rfl)
      (by rfl) (by rfl) (by rfl)

/-- C8 counterexample: user 1 is present (stored with integer id 1), yet
deleting it through the digit-string identifier `"1"` raises
`NotFoundException("Invalid UUID format: 1")` — the existence check finds
the row via the integer fallback, but the delete branch re-parses the
string as a UUID and fails. -/
theorem C8_counterexample :
    fetchOneBy Demo.demoStore Demo.userModel "id" (.vInt 1) = .ok (some Demo.userRow1) ∧
    (delete_entity_from_db_by_id Demo.demoStore Demo.userModel (.vStr "1")).1 =
      .error (.notFound "Invalid UUID format: 1") :=
  ⟨rfl, rfl⟩

/-- C8 (amended): the `delete → 204`, `delete again → NotFound` behaviour
holds only when the identifier is of the model's delete-addressing kind:
an integer (or other non-string) primary-key value on a model without a
`uuid` attribute, or a typed UUID on a model with one.  On a uuid-bearing
model, a digit-string identifier that resolves via the integer fallback
raises `NotFound` even though the entity is present, and an integer
identifier returns 204 without deleting anything, so a second call
returns 204 again. -/
theorem C8_delete_semantics :
    (∀ (store : Store) (m : ModelDesc) (v : Value) (R : Row),
        m.hasUuid = false → (∀ s, v ≠ .vStr s) →
        fetchOneBy store m "id" v = .ok (some R) →
          delete_entity_from_db_by_id store m v =
            (.ok 204, storeDelete store m "id" v) ∧
          (delete_entity_from_db_by_id (storeDelete store m "id" v) m v).1 =
            .error (.notFound ("Entity with id " ++ pyStrOfValue v ++ " not found"))) ∧
    (∀ (store : Store) (m : ModelDesc) (u : String) (R : Row),
        m.hasUuid = true → m.hasId = true → m.idIsUuid = false →
        fetchOneBy store m "uuid" (.vUuid u) = .ok (some R) →
          delete_entity_from_db_by_id store m (.vUuid u) =
            (.ok 204, storeDelete store m "uuid" (.vUuid u)) ∧
          (delete_entity_from_db_by_id (storeDelete store m "uuid" (.vUuid u)) m
              (.vUuid u)).1 =
            .error (.notFound ("Entity with id " ++ pyStrOfValue (.vUuid u) ++
              " not found"))) ∧
    (∀ (store : Store) (m : ModelDesc) (s : String) (R : Row),
        m.hasUuid = true → m.hasId = true → m.idIsUuid = false →
        pythonUuidParse s = none → pyIsDigit s = true →
        fetchOneBy store m "id" (.vInt (pyInt s)) = .ok (some R) →
          (delete_entity_from_db_by_id store m (.vStr s)).1 =
            .error (.notFound ("Invalid UUID format: " ++ s))) ∧
    (∀ (store : Store) (m : ModelDesc) (n : Int) (R : Row),
        m.hasUuid = true → m.hasId = true → m.idIsUuid = false →
        fetchOneBy store m "id" (.vInt n) = .ok (some R) →
        (∀ r ∈ store.rows m.className, sqlEq (rowGet r "uuid") (.vInt n) = false) →
          delete_entity_from_db_by_id store m (.vInt n) =
            (.ok 204, storeDelete store m "uuid" (.vInt n)) ∧
          (storeDelete store m "uuid" (.vInt n)).rows m.className =
            store.rows m.className ∧
          (delete_entity_from_db_by_id (storeDelete store m "uuid" (.vInt n)) m
              (.vInt n)).1 = .ok 204) := by
  refine ⟨?_, ?_, ?_, ?_⟩
  · intro store m v R hU hv hRow
    have hresolve : ∀ (st : Store),
        get_entity_by_id_or_uuid st m v = fetchOneBy st m "id" v := by
      intro st
      cases v with
      | vStr s => exact absurd rfl (hv s)
      | vNone => unfold get_entity_by_id_or_uuid; simp [hU]
      | vInt n => unfold get_entity_by_id_or_uuid; simp [hU]
      | vUuid u => unfold get_entity_by_id_or_uuid; simp [hU]
      | vBool b => unfold get_entity_by_id_or_uuid; simp [hU]
      | vList l => unfold get_entity_by_id_or_uuid; simp [hU]
    have hfail : store.failing m.className "id" v = false :=
      fetchOneBy_ok_not_failing hRow
    have hdel : ∀ (st : Store), get_entity_by_id_or_uuid st m v = .ok (some R) →
        delete_entity_from_db_by_id st m v = (.ok 204, storeDelete st m "id" v) := by
      intro st hres
      unfold delete_entity_from_db_by_id
      rw [hres]
      cases v with
      | vStr s => exact absurd rfl (hv s)
      | vNone => simp [hU]
      | vInt n => simp [hU]
      | vUuid u => simp [hU]
      | vBool b => simp [hU]
      | vList l => simp [hU]
    have h1 : delete_entity_from_db_by_id store m v =
        (.ok 204, storeDelete store m "id" v) :=
      hdel store (by rw [hresolve store]; exact hRow)
    refine ⟨h1, ?_⟩
    have hfetch2 : fetchOneBy (storeDelete store m "id" v) m "id" v = .ok none := by
      unfold fetchOneBy
      rw [storeDelete_failing, hfail]
      rw [if_neg (by simp)]
      rw [storeDelete_rows]
      rw [List.filter_filter]
      have hnil : ((store.rows m.className).filter
          (fun r => sqlEq (rowGet r "id") v && !(sqlEq (rowGet r "id") v))) = [] := by
        rw [List.filter_eq_nil_iff]
        intro r _ hcontra
        simp at hcontra
      rw [hnil]
    unfold delete_entity_from_db_by_id
    rw [hresolve (storeDelete store m "id" v), hfetch2]
  · intro store m u R hU hI hIU hRow
    have hresolve : ∀ (st : Store), get_entity_by_id_or_uuid st m (.vUuid u) =
        fetchOneBy st m "uuid" (.vUuid u) := by
      intro st
      unfold get_entity_by_id_or_uuid
      simp [hU, hI, hIU]
    have hfail : store.failing m.className "uuid" (.vUuid u) = false :=
      fetchOneBy_ok_not_failing hRow
    have h1 : delete_entity_from_db_by_id store m (.vUuid u) =
        (.ok 204, storeDelete store m "uuid" (.vUuid u)) := by
      unfold delete_entity_from_db_by_id
      rw [hresolve store, hRow]
      simp [hU]
    refine ⟨h1, ?_⟩
    have hfetch2 : fetchOneBy (storeDelete store m "uuid" (.vUuid u)) m "uuid"
        (.vUuid u) = .ok none := by
      unfold fetchOneBy
      rw [storeDelete_failing, hfail]
      rw [if_neg (by simp)]
      rw [storeDelete_rows]
      rw [List.filter_filter]
      have hnil : ((store.rows m.className).filter
          (fun r => sqlEq (rowGet r "uuid") (.vUuid u) &&
            !(sqlEq (rowGet r "uuid") (.vUuid u)))) = [] := by
        rw [List.filter_eq_nil_iff]
        intro r _ hcontra
        simp at hcontra
      rw [hnil]
    unfold delete_entity_from_db_by_id
    rw [hresolve (storeDelete store m "uuid" (.vUuid u)), hfetch2]
  · intro store m s R hU hI hIU hP hD hRow
    have hresolve : get_entity_by_id_or_uuid store m (.vStr s) = .ok (some R) := by
      unfold get_entity_by_id_or_uuid
      simp [hU, hI, hIU, hP, hD, hRow]
    unfold delete_entity_from_db_by_id
    rw [hresolve]
    simp [hU, hP]
  · intro store m n R hU hI hIU hRow hNoUuid
    have hresolve : ∀ (st : Store), st.rows m.className = store.rows m.className →
        st.failing = store.failing →
        get_entity_by_id_or_uuid st m (.vInt n) = .ok (some R) := by
      intro st hrows hfailing
      unfold get_entity_by_id_or_uuid
      simp only [hU, hI, hIU]
      simp only [ite_self]
      unfold fetchOneBy at hRow ⊢
      rw [hfailing, hrows]
      exact hRow
    have hrows2 : (storeDelete store m "uuid" (.vInt n)).rows m.className =
        store.rows m.className := by
      rw [storeDelete_rows]
      rw [List.filter_eq_self]
      intro r hr
      rw [hNoUuid r hr]
      rfl
    have hdel : ∀ (st : Store), st.rows m.className = store.rows m.className →
        st.failing = store.failing →
        delete_entity_from_db_by_id st m (.vInt n) =
          (.ok 204, storeDelete st m "uuid" (.vInt n)) := by
      intro st hrows hfailing
      unfold delete_entity_from_db_by_id
      rw [hresolve st hrows hfailing]
      simp [hU]
    refine ⟨hdel store rfl rfl, hrows2, ?_⟩
    rw [hdel (storeDelete store m "uuid" (.vInt n)) hrows2
      (storeDelete_failing store m "uuid" (.vInt n))]

/-- Witness for C8 (amended): deleting team 3 by integer id returns 204
and then NotFound; deleting user 1 by its uuid does the same; deleting
user 1 by the digit string `"1"` raises NotFound although the row exists;
deleting user 1 by the integer 1 returns 204 twice without deleting. -/
theorem C8_delete_semantics_witness :
    (delete_entity_from_db_by_id Demo.demoStore Demo.teamModel (.vInt 3) =
        (.ok 204, storeDelete Demo.demoStore Demo.teamModel "id" (.vInt 3)) ∧
      (delete_entity_from_db_by_id
          (storeDelete Demo.demoStore Demo.teamModel "id" (.vInt 3))
          Demo.teamModel (.vInt 3)).1 =
        .error (.notFound "Entity with id 3 not found")) ∧
    (delete_entity_from_db_by_id Demo.demoStore Demo.userModel (.vUuid Demo.hexU1) =
        (.ok 204, storeDelete Demo.demoStore Demo.userModel "uuid" (.vUuid Demo.hexU1))) ∧
    ((delete_entity_from_db_by_id Demo.demoStore Demo.userModel (.vStr "1")).1 =
        .error (.notFound "Invalid UUID format: 1")) ∧
    ((delete_entity_from_db_by_id
        (storeDelete Demo.demoStore Demo.userModel "uuid" (.vInt 1))
        Demo.userModel (.vInt 1)).1 = .ok 204) := by
  refine ⟨?_, ?_, ?_, ?_⟩
  · exact (C8_delete_semantics.1 Demo.demoStore Demo.teamModel (.vInt 3) Demo.teamRow
      (by rfl) (fun s h => by cases h) (by rfl))
  · exact (C8_delete_semantics.2.1 Demo.demoStore Demo.userModel Demo.hexU1 Demo.userRow1
      (by rfl) (by rfl) (by rfl) (by rfl)).1
  · exact C8_delete_semantics.2.2.1 Demo.demoStore Demo.userModel "1" Demo.userRow1
      (by rfl) (by rfl) (by rfl) (by rfl) (by rfl) (by rfl)
  · exact (C8_delete_semantics.2.2.2 Demo.demoStore Demo.userModel 1 Demo.userRow1
      (by rfl) (by rfl) (by rfl) (by rfl) (by decide)).2.2

/-- C7: for an existing entity (resolved through the model's update key —
`uuid` for models with a `uuid` attribute, integer `id` otherwise) and any
partial update payload, `update_entity_in_db` applies exactly the fields
that are present and non-null: the stored row keeps every other field's
previous value, rows not addressed by the key are untouched, and the
re-expanded document (depth 2) of the updated store is returned.  An
all-null/empty payload performs no UPDATE and returns the unchanged
expansion. -/
theorem C7_update_patch_semantics (reg : Registry) (store : Store) (m : ModelDesc)
    (v : Value) (entity : List (String × Value)) (R : Row)
    (hv : ∀ s, v ≠ .vStr s)
    (hRow : fetchOneBy store m (if m.hasUuid then "uuid" else "id") v = .ok (some R)) :
    ((entity.filter (fun p => !(p.2 == Value.vNone))).isEmpty = true →
      update_entity_in_db reg store m v entity =
        (get_one_recursive reg store 2 m v, store)) ∧
    ((entity.filter (fun p => !(p.2 == Value.vNone))).isEmpty = false →
      update_entity_in_db reg store m v entity =
        (get_one_recursive reg
            (storeUpdate store m (if m.hasUuid then "uuid" else "id") v
              (entity.filter (fun p => !(p.2 == Value.vNone)))) 2 m v,
         storeUpdate store m (if m.hasUuid then "uuid" else "id") v
           (entity.filter (fun p => !(p.2 == Value.vNone))))) ∧
    (∀ (k : String) (v0 : Value), List.lookup k R = some v0 →
      List.lookup k (rowUpdate R (entity.filter (fun p => !(p.2 == Value.vNone)))) =
        some ((List.lookup k (entity.filter (fun p => !(p.2 == Value.vNone)))).getD v0)) ∧
    ((storeUpdate store m (if m.hasUuid then "uuid" else "id") v
        (entity.filter (fun p => !(p.2 == Value.vNone)))).rows m.className =
      (store.rows m.className).map
        (fun r => if sqlEq (rowGet r (if m.hasUuid then "uuid" else "id")) v
          then rowUpdate r (entity.filter (fun p => !(p.2 == Value.vNone))) else r)) := by
  have hmain : ∀ (b : Bool),
      (entity.filter (fun p => !(p.2 == Value.vNone))).isEmpty = b →
      update_entity_in_db reg store m v entity =
        (if b then (get_one_recursive reg store 2 m v, store)
         else (get_one_recursive reg
                 (storeUpdate store m (if m.hasUuid then "uuid" else "id") v
                   (entity.filter (fun p => !(p.2 == Value.vNone)))) 2 m v,
               storeUpdate store m (if m.hasUuid then "uuid" else "id") v
                 (entity.filter (fun p => !(p.2 == Value.vNone))))) := by
    intro b hb
    unfold update_entity_in_db
    cases hU : m.hasUuid with
    | true =>
      simp [hU] at hRow
      cases v with
      | vStr s => exact absurd rfl (hv s)
      | vNone => simp [hU, hRow, hb]
      | vInt n => simp [hU, hRow, hb]
      | vUuid u => simp [hU, hRow, hb]
      | vBool b2 => simp [hU, hRow, hb]
      | vList l => simp [hU, hRow, hb]
    | false =>
      simp [hU] at hRow
      cases v with
      | vStr s => exact absurd rfl (hv s)
      | vNone => simp [hU, hRow, hb]
      | vInt n => simp [hU, hRow, hb]
      | vUuid u => simp [hU, hRow, hb]
      | vBool b2 => simp [hU, hRow, hb]
      | vList l => simp [hU, hRow, hb]
  refine ⟨?_, ?_, ?_, ?_⟩
  · intro hempty
    rw [hmain true hempty]
    rfl
  · intro hnonempty
    rw [hmain false hnonempty]
    rfl
  · intro k v0 hk
    rw [rowUpdate_lookup, hk]
    rfl
  · exact storeUpdate_rows store m (if m.hasUuid then "uuid" else "id") v
      (entity.filter (fun p => !(p.2 == Value.vNone)))

/-- Witness for C7: updating the demo organization with
`{name: "NewName", description: null}` rewrites `name`, keeps
`description` and `id`, and returns the re-expanded document of the
updated store. -/
theorem C7_update_patch_semantics_witness :
    update_entity_in_db Demo.demoReg Demo.demoStore Demo.orgModel (.vUuid Demo.hexO9)
        Demo.orgPayload =
      (get_one_recursive Demo.demoReg
          (storeUpdate Demo.demoStore Demo.orgModel "id" (.vUuid Demo.hexO9)
            [("name", .vStr "NewName")]) 2 Demo.orgModel (.vUuid Demo.hexO9),
       storeUpdate Demo.demoStore Demo.orgModel "id" (.vUuid Demo.hexO9)
         [("name", .vStr "NewName")]) ∧
    List.lookup "name" (rowUpdate Demo.orgRow [("name", .vStr "NewName")]) =
      some (.vStr "NewName") ∧
    List.lookup "description" (rowUpdate Demo.orgRow [("name", .vStr "NewName")]) =
      some (.vStr "Old") ∧
    List.lookup "id" (rowUpdate Demo.orgRow [("name", .vStr "NewName")]) =
      some (.vUuid Demo.hexO9) := by
  refine ⟨?_, ?_, ?_, ?_⟩
  · exact (C7_update_patch_semantics Demo.demoReg Demo.demoStore Demo.orgModel
      (.vUuid Demo.hexO9) Demo.orgPayload Demo.orgRow (fun s h => by cases h)
      (by rfl)).2.1 (by rfl)
  · exact (C7_update_patch_semantics Demo.demoReg Demo.demoStore Demo.orgModel
      (.vUuid Demo.hexO9) Demo.orgPayload Demo.orgRow (fun s h => by cases h)
      (by rfl)).2.2.1 "name" (.vStr "Acme") (by rfl)
  · exact (C7_update_patch_semantics Demo.demoReg Demo.demoStore Demo.orgModel
      (.vUuid Demo.hexO9) Demo.orgPayload Demo.orgRow (fun s h => by cases h)
      (by rfl)).2.2.1 "description" (.vStr "Old") (by rfl)
  · exact (C7_update_patch_semantics Demo.demoReg Demo.demoStore Demo.orgModel
      (.vUuid Demo.hexO9) Demo.orgPayload Demo.orgRow (fun s h => by cases h)
      (by rfl)).2.2.1 "id" (.vUuid Demo.hexO9) (by rfl)

/-- C2: `create_entity_in_db` re-fetches the created identifier through
`__get_one_recursive` at its default depth 2, so a read of the returned
identifier at that depth yields the identical document — writes and reads
share the projection logic.  The hypothesis (no model has both a `uuid`
attribute and a UUID-typed `id` column) holds for every model of the
repository: `User` has an integer `id`, and `Organization`,
`Notification`, `NotificationSettings` have no `uuid` attribute. -/
theorem C2_create_read_round_trip (reg : Registry) (store : Store) (m : ModelDesc)
    (entity : Row) (hm : (m.hasUuid && m.idIsUuid) = false) :
    (create_entity_in_db reg store m entity).1 =
      get_entity_from_db_by_id reg (create_entity_in_db reg store m entity).2 m
        (rowGet entity "id") 2 := by
  have hg : (m.hasUuid && m.hasId && m.idIsUuid) = false := by
    cases h1 : m.hasUuid <;> cases h2 : m.idIsUuid <;> cases h3 : m.hasId <;>
      simp_all
  unfold create_entity_in_db get_entity_from_db_by_id
  simp only [hm, hg]
  simp

/-- Witness for C2: creating the demo user 5 and reading id 5 back at
depth 2 agree. -/
theorem C2_create_read_round_trip_witness :
    (create_entity_in_db Demo.demoReg Demo.demoStore Demo.userModel Demo.newUserRow).1 =
      get_entity_from_db_by_id Demo.demoReg
        (create_entity_in_db Demo.demoReg Demo.demoStore Demo.userModel
          Demo.newUserRow).2
        Demo.userModel (.vInt 5) 2 :=
  C2_create_read_round_trip Demo.demoReg Demo.demoStore Demo.userModel Demo.newUserRow
    (by rfl)

/-- C5: translating `{"organization_id": ["A","B"], "is_active": true}`
against any descriptor having both fields produces exactly two
predicates, in order: membership of `organization_id` in `{A, B}` and
equality `is_active = true`. -/
theorem C5_filter_translation (m : ModelDesc)
    (h1 : m.attrs.contains "organization_id" = true)
    (h2 : m.attrs.contains "is_active" = true) :
    _process_filters_of_query_parameters m []
      [("organization_id", .vList [.vStr "A", .vStr "B"]), ("is_active", .vBool true)] =
      .ok [.inSet "organization_id" (.vList [.vStr "A", .vStr "B"]),
           .eqTo "is_active" (.vBool true)] := by
  have h1m : "organization_id" ∈ m.attrs := by simpa using h1
  have h2m : "is_active" ∈ m.attrs := by simpa using h2
  unfold _process_filters_of_query_parameters
  simp only [process_params_loop]
  simp +decide [h1m, h2m, qpGet, convertUuids, pyTruthy]

/-- Witness for C5 at the demo `User` descriptor. -/
theorem C5_filter_translation_witness :
    _process_filters_of_query_parameters Demo.userModel []
      [("organization_id", .vList [.vStr "A", .vStr "B"]), ("is_active", .vBool true)] =
      .ok [.inSet "organization_id" (.vList [.vStr "A", .vStr "B"]),
           .eqTo "is_active" (.vBool true)] :=
  C5_filter_translation Demo.userModel (by rfl) (by rfl)

/-- C6: the repository's temporal-filter branch calls
`self.parse_datetime(...)`, but no class in the repository hierarchy
defines `parse_datetime` (it exists only on `TimeManager`), so **every**
`time_start`/`time_finish` filter — parseable or not — raises
`AttributeError("parse_datetime")` inside the filter translation;
`BaseService.get_all_entities` then converts it into a
`BadRequestException` whose error text names the missing attribute, not
the offending input.  The claim's intended behaviour (ValueError naming
the input, surfaced as BadRequest, with parseable strings succeeding) is
unreachable. -/
theorem C6_time_filter_attribute_fault (reg : Registry) (store : Store)
    (m : ModelDesc) (s : String) (d : Nat) (h : (s.length != 0) = true) :
    _process_filters_of_query_parameters m [] [("time_start", .vStr s)] =
      .error (.attributeError "parse_datetime") ∧
    get_all_entities reg store m [("time_start", .vStr s)] d =
      .error (.badRequest ("object has no attribute parse_datetime")) := by
  have hfilters : _process_filters_of_query_parameters m [] [("time_start", .vStr s)] =
      .error (.attributeError "parse_datetime") := by
    unfold _process_filters_of_query_parameters
    simp only [process_params_loop]
    simp +decide [qpGet, convertUuids, pyTruthy, h]
  refine ⟨hfilters, ?_⟩
  unfold get_all_entities get_all_recursive
  rw [if_neg (by simp), hfilters]
  rfl

/-- Witness for C6: even the perfectly parseable temporal string
`"2024-01-01T00:00:00"` faults. -/
theorem C6_time_filter_attribute_fault_witness :
    _process_filters_of_query_parameters Demo.userModel []
      [("time_start", .vStr "2024-01-01T00:00:00")] =
      .error (.attributeError "parse_datetime") ∧
    get_all_entities Demo.demoReg Demo.demoStore Demo.userModel
      [("time_start", .vStr "2024-01-01T00:00:00")] 4 =
      .error (.badRequest ("object has no attribute parse_datetime")) :=
  C6_time_filter_attribute_fault Demo.demoReg Demo.demoStore Demo.userModel
    "2024-01-01T00:00:00" 4 (by rfl)

/-- C10: a non-empty query-parameter mapping that produces no filter
predicate (for example `{"limit": 10}`) makes `__get_all_recursive` read
the local pagination variables before they are bound: the operation
raises (`UnboundLocalError` on `offset`) instead of returning the
unfiltered, paginated list — pagination is only applied in the branch
where at least one filter predicate was produced. -/
theorem C10_unfiltered_pagination_raises (reg : Registry) (store : Store)
    (m : ModelDesc) (qp : List (String × Value)) (d : Nat) (h1 : qp ≠ [])
    (h2 : _process_filters_of_query_parameters m [] qp = .ok []) :
    get_all_recursive reg store m qp d = .error (.unboundLocal "offset") := by
  have hne : qp.isEmpty = false := by
    cases qp with
    | nil => exact absurd rfl h1
    | cons a l => rfl
  unfold get_all_recursive
  rw [if_neg (by simp [hne]), h2]
  rfl

/-- Witness for C10: `{"limit": 10}` produces no filters and the list
operation raises instead of returning the first 10 entities. -/
theorem C10_unfiltered_pagination_raises_witness :
    get_all_recursive Demo.demoReg Demo.demoStore Demo.userModel
      [("limit", .vInt 10)] 0 = .error (.unboundLocal "offset") :=
  C10_unfiltered_pagination_raises Demo.demoReg Demo.demoStore Demo.userModel
    [("limit", .vInt 10)] 0 (by simp) (by rfl)

end CrudCore
